import Mathlib

/-!
Verification of the port-scanner core of `osint.py` (OSINT SOC Toolkit).

The Python source is shallowly embedded: network behaviour is supplied as
explicit outcome values (what `connect_ex`, the banner-phase calls and the
geolocation HTTP call would have done), and each function is translated into
a pure Lean function over those outcomes.  The thread pool of
`escanear_puertos_comunes` is modelled as a transition system whose states
track pending / in-flight / finished probe tasks.
-/

/-- The dictionary `PUERTOS_COMUNES` of `osint.py`, as an association list in
source (insertion) order. -/
def PUERTOS_COMUNES : List (Nat × String) :=
  [(21, "FTP"), (22, "SSH"), (23, "Telnet"), (25, "SMTP"), (53, "DNS"),
   (80, "HTTP"), (110, "POP3"), (111, "RPC"), (135, "RPC"), (139, "NetBIOS"),
   (143, "IMAP"), (443, "HTTPS"), (445, "SMB"), (993, "IMAPS"), (995, "POP3S"),
   (1723, "PPTP"), (3306, "MySQL"), (3389, "RDP"), (5432, "PostgreSQL"),
   (5900, "VNC"), (6379, "Redis"), (8080, "HTTP-Alt"), (8443, "HTTPS-Alt")]

/-- The result dictionary built by `escan_puerto` for an open port. -/
structure PortResult where
  puerto : Nat
  estado : String
  servicio : String
  banner : String
deriving DecidableEq, Repr

/-- Outcome of the first phase of `escan_puerto`: `sock.connect_ex((ip, puerto))`.
`ok` is return value `0`; `refused` is any nonzero return value (refused,
timed out, unreachable); `exn` means the call raised (e.g. name resolution
failure). -/
inductive ConnectOutcome
  | ok
  | refused
  | exn
deriving DecidableEq, Repr

/-- Outcome of the banner phase of `escan_puerto`.  `ok data` means
`connect`, `send` and `recv` all succeeded and `recv(1024)` returned `data`;
the `exn` constructors name the call that raised instead. -/
inductive BannerOutcome
  | ok (data : List Nat)
  | exnConnect
  | exnSend
  | exnRecv
deriving DecidableEq, Repr

/-- Whether the banner phase succeeded through `recv`. -/
def BannerOutcome.isOk : BannerOutcome → Bool
  | .ok _ => true
  | _ => false

/-- The fixed payload `b"HEAD / HTTP/1.0\r\n\r\n"` sent by the banner phase. -/
def BANNER_PROBE : String := "HEAD / HTTP/1.0\r\n\r\n"

/-- UTF-8 byte length of a string (sum of the byte widths of its characters). -/
def utf8ByteLen (s : String) : Nat := (s.toList.map Char.utf8Size).sum

/-- A UTF-8 continuation byte (0x80–0xBF). -/
def isCont (c : Nat) : Bool := 128 ≤ c && c < 192

/-- Admissible first continuation byte after a 3-byte lead (excludes overlong
forms after 0xE0 and surrogates after 0xED). -/
def cont3ok (b c : Nat) : Bool :=
  if b = 224 then 160 ≤ c && c < 192
  else if b = 237 then 128 ≤ c && c < 160
  else isCont c

/-- Admissible first continuation byte after a 4-byte lead (excludes overlong
forms after 0xF0 and values above U+10FFFF after 0xF4). -/
def cont4ok (b c : Nat) : Bool :=
  if b = 240 then 144 ≤ c && c < 192
  else if b = 244 then 128 ≤ c && c < 144
  else isCont c

/-- Python's `bytes.decode('utf-8', errors='ignore')`: decode UTF-8, dropping
each maximal invalid subpart instead of raising. -/
def utf8DecodeIgnore : List Nat → List Char
  | [] => []
  | b :: rest =>
    if b < 128 then Char.ofNat b :: utf8DecodeIgnore rest
    else if b < 194 then utf8DecodeIgnore rest
    else if b < 224 then
      match rest with
      | [] => []
      | c1 :: r1 =>
        if isCont c1 then
          Char.ofNat ((b - 192) * 64 + (c1 - 128)) :: utf8DecodeIgnore r1
        else utf8DecodeIgnore (c1 :: r1)
    else if b < 240 then
      match rest with
      | [] => []
      | c1 :: r1 =>
        if cont3ok b c1 then
          match r1 with
          | [] => []
          | c2 :: r2 =>
            if isCont c2 then
              Char.ofNat ((b - 224) * 4096 + (c1 - 128) * 64 + (c2 - 128)) ::
                utf8DecodeIgnore r2
            else utf8DecodeIgnore (c2 :: r2)
        else utf8DecodeIgnore (c1 :: r1)
    else if b < 245 then
      match rest with
      | [] => []
      | c1 :: r1 =>
        if cont4ok b c1 then
          match r1 with
          | [] => []
          | c2 :: r2 =>
            if isCont c2 then
              match r2 with
              | [] => []
              | c3 :: r3 =>
                if isCont c3 then
                  Char.ofNat ((b - 240) * 262144 + (c1 - 128) * 4096 +
                      (c2 - 128) * 64 + (c3 - 128)) :: utf8DecodeIgnore r3
                else utf8DecodeIgnore (c3 :: r3)
            else utf8DecodeIgnore (c2 :: r2)
        else utf8DecodeIgnore (c1 :: r1)
    else utf8DecodeIgnore rest

/-- The banner string computed by the banner phase:
`banner_sock.recv(1024).decode('utf-8', errors='ignore')[:100]` on success,
the `"No disponible"` sentinel when any banner-phase call raised. -/
def bannerResult : BannerOutcome → String
  | .ok data => String.mk ((utf8DecodeIgnore (data.take 1024)).take 100)
  | _ => "No disponible"

/-- A socket lifecycle event.  Socket id 0 is `sock` (the connect probe),
id 1 is `banner_sock`. -/
inductive SockEvent
  | opened (id : Nat)
  | closed (id : Nat)
  | sent (id : Nat) (payload : String)
deriving DecidableEq, Repr

/-- Socket events of the banner phase.  The `try` block runs
`socket(...)`, `settimeout`, `connect`, `send`, `recv`, `close` in order and
the bare `except` aborts at the raising call, so `banner_sock.close()` is
reached only when every earlier call succeeded. -/
def bannerEvents : BannerOutcome → List SockEvent
  | .ok _ => [SockEvent.opened 1, SockEvent.sent 1 BANNER_PROBE, SockEvent.closed 1]
  | .exnConnect => [SockEvent.opened 1]
  | .exnSend => [SockEvent.opened 1]
  | .exnRecv => [SockEvent.opened 1, SockEvent.sent 1 BANNER_PROBE]

/-- `escan_puerto(ip, puerto, timeout)` of `osint.py`, instrumented with the
socket events it performs.  The first component is the Python return value
(`None` or the result dictionary), the second the socket event trace. -/
def escan_puerto_trace (puerto : Nat) (conn : ConnectOutcome) (ban : BannerOutcome) :
    Option PortResult × List SockEvent :=
  match conn with
  | .exn => (none, [SockEvent.opened 0])
  | .refused => (none, [SockEvent.opened 0, SockEvent.closed 0])
  | .ok =>
    (some { puerto := puerto, estado := "abierto",
            servicio := (List.lookup puerto PUERTOS_COMUNES).getD "desconocido",
            banner := bannerResult ban },
     [SockEvent.opened 0, SockEvent.closed 0] ++ bannerEvents ban)

/-- The return value of `escan_puerto`. -/
def escan_puerto (puerto : Nat) (conn : ConnectOutcome) (ban : BannerOutcome) :
    Option PortResult :=
  (escan_puerto_trace puerto conn ban).1

/-- `puertos_a_escanear = list(PUERTOS_COMUNES.keys())`. -/
def puertos_a_escanear : List Nat := PUERTOS_COMUNES.map Prod.fst

/-- A network environment: for each port, what the connect probe and the
banner phase would observe.  One scan probes each port once, so the outcomes
are a function of the port. -/
def NetEnv : Type := Nat → ConnectOutcome × BannerOutcome

/-- The probe of one port under environment `env`. -/
def escanF (env : NetEnv) (p : Nat) : Option PortResult :=
  escan_puerto p (env p).1 (env p).2

/-- The list `puertos_abiertos` built by `escanear_puertos_comunes`: the loop
iterates the `futures` dict in submission order (the order of
`puertos_a_escanear`) and appends every non-`None` probe result. -/
def scanResult (env : NetEnv) : List PortResult :=
  puertos_a_escanear.filterMap (escanF env)

/-- State of the `ThreadPoolExecutor(max_workers=20)` run inside
`escanear_puertos_comunes`: ports whose task is still queued, ports whose
task a worker is currently executing, and finished tasks with the value
their future holds. -/
structure PoolState where
  pending : List Nat
  running : List Nat
  done : List (Nat × Option PortResult)

/-- A scheduler step of the pool: a queued task may start when fewer than 20
workers are busy (`max_workers=20`), and any in-flight task may finish, its
future then holding `escan_puerto`'s value for that port. -/
inductive PoolStep (env : NetEnv) : PoolState → PoolState → Prop
  | start (p : Nat) (rest running : List Nat) (done : List (Nat × Option PortResult))
      (h : running.length < 20) :
      PoolStep env ⟨p :: rest, running, done⟩ ⟨rest, p :: running, done⟩
  | finish (pending l1 l2 : List Nat) (p : Nat) (done : List (Nat × Option PortResult)) :
      PoolStep env ⟨pending, l1 ++ p :: l2, done⟩
        ⟨pending, l1 ++ l2, (p, escanF env p) :: done⟩

/-- Pool states reachable from submitting one task per port of `ports`. -/
inductive Reachable (env : NetEnv) (ports : List Nat) : PoolState → Prop
  | init : Reachable env ports ⟨ports, [], []⟩
  | step {s s' : PoolState} : Reachable env ports s → PoolStep env s s' →
      Reachable env ports s'

/-- A state in which every submitted task has finished; only here can the
collection loop (which calls `future.result()` on every future) return. -/
def PoolState.complete (s : PoolState) : Prop := s.pending = [] ∧ s.running = []

/-- The collection loop of `escanear_puertos_comunes`: iterate the futures in
submission order (`ports`), read each future's value, keep the non-`None`
ones. -/
def collectPool (ports : List Nat) (s : PoolState) : List PortResult :=
  ports.filterMap (fun p => (List.lookup p s.done).join)

/-- The geolocation JSON object returned by `ip-api.com`, with the fields
`geo_ip` reads; `α` is the type of raw JSON values. -/
structure GeoJson (α : Type) where
  status : Option String
  message : Option String
  query : Option α
  country : Option α
  regionName : Option α
  city : Option α
  lat : Option α
  lon : Option α
  isp : Option α
  org : Option α

/-- Outcome of `requests.get(url, timeout=5).json()`: either some call in the
`try` block raised, or a parsed JSON object was obtained. -/
inductive GeoHttp (α : Type)
  | exn
  | ok (data : GeoJson α)

/-- The `resultado` dictionary built by `geo_ip` on success. -/
structure GeoResult (α : Type) where
  Ip : Option α
  Pais : Option α
  Region : Option α
  Ciudad : Option α
  Latitud : Option α
  Longitud : Option α
  Isp : Option α
  Organizacion : Option α
deriving DecidableEq

/-- Console lines printed by `geo_ip`, as abstract events carrying the data
that is interpolated into them. -/
inductive GeoEvent (α : Type)
  | consulting (ip : String)
  | found
  | verbosePais (v : Option α)
  | verboseCiudad (v : Option α)
  | verboseIsp (v : Option α)
  | errMessage (m : Option String)
  | errExn

/-- `geo_ip(ip, verbose)` of `osint.py`: returns the geolocation dictionary
(or `None`) together with the console output it produced. -/
def geo_ip (α : Type) (ip : String) (resp : GeoHttp α) (verbose : Bool) :
    Option (GeoResult α) × List (GeoEvent α) :=
  match resp with
  | .exn => (none, [GeoEvent.consulting ip, GeoEvent.errExn])
  | .ok data =>
    if data.status = some "success" then
      let resultado : GeoResult α :=
        { Ip := data.query, Pais := data.country, Region := data.regionName,
          Ciudad := data.city, Latitud := data.lat, Longitud := data.lon,
          Isp := data.isp, Organizacion := data.org }
      (some resultado,
       [GeoEvent.consulting ip, GeoEvent.found] ++
         (if verbose then
           [GeoEvent.verbosePais resultado.Pais,
            GeoEvent.verboseCiudad resultado.Ciudad,
            GeoEvent.verboseIsp resultado.Isp]
          else []))
    else
      (none, [GeoEvent.consulting ip, GeoEvent.errMessage data.message])

/-- Console lines printed by `escanear_puertos_comunes`. -/
inductive ScanEvent
  | scanning (ip : String)
  | portOpen (puerto : Nat) (servicio : String)
  | foundCount (n : Nat)
deriving DecidableEq, Repr

/-- `escanear_puertos_comunes(ip, verbose)` of `osint.py`: the returned list
of open-port dictionaries together with the console output (the per-port
lines are printed only under `verbose`). -/
def escanear_puertos_comunes (ip : String) (env : NetEnv) (verbose : Bool) :
    List PortResult × List ScanEvent :=
  let puertos_abiertos := scanResult env
  (puertos_abiertos,
   ScanEvent.scanning ip ::
     ((if verbose then
        puertos_abiertos.map (fun r => ScanEvent.portOpen r.puerto r.servicio)
       else []) ++
      [ScanEvent.foundCount puertos_abiertos.length]))

/-- A concrete open-port result used to instantiate several statements. -/
def r80 : PortResult :=
  { puerto := 80, estado := "abierto", servicio := "HTTP", banner := "Hi" }

/-- A concrete probe result for a port outside the table. -/
def r9999 : PortResult :=
  { puerto := 9999, estado := "abierto", servicio := "desconocido",
    banner := "No disponible" }

/-- 102 bytes of valid UTF-8: 51 copies of the 2-byte encoding of U+00A2. -/
def bannerBytes102 : List Nat := (List.replicate 51 [194, 162]).flatten

/-- The environment used to instantiate scanner statements: port 80 open
with banner bytes "Hi", every other port refusing the connection. -/
def env0 : NetEnv := fun p =>
  if p = 80 then (ConnectOutcome.ok, BannerOutcome.ok [72, 105])
  else (ConnectOutcome.refused, BannerOutcome.exnConnect)

/-- The complete state obtained by running the 23 submitted probes under
`env0`. -/
def finalState0 : PoolState :=
  ⟨[], [], puertos_a_escanear.reverse.map (fun p => (p, escanF env0 p)) ++ []⟩

/-- On successful connect, `escan_puerto` returns the result dictionary. -/
lemma escan_puerto_ok_eq (p : Nat) (b : BannerOutcome) :
    escan_puerto p ConnectOutcome.ok b =
      some { puerto := p, estado := "abierto",
             servicio := (List.lookup p PUERTOS_COMUNES).getD "desconocido",
             banner := bannerResult b } := rfl

/-- Any result produced by `escan_puerto` names the probed port. -/
lemma escan_puerto_some_puerto {p : Nat} {c : ConnectOutcome} {b : BannerOutcome}
    {r : PortResult} (h : escan_puerto p c b = some r) : r.puerto = p := by
  cases c with
  | ok =>
    rw [escan_puerto_ok_eq] at h
    have hr := Option.some.inj h
    subst hr
    rfl
  | refused => simp [escan_puerto, escan_puerto_trace] at h
  | exn => simp [escan_puerto, escan_puerto_trace] at h

/-- Mapping a left inverse of `f` over `l.filterMap f` gives a sublist of `l`. -/
lemma map_filterMap_sublist {α β : Type} (f : α → Option β) (g : β → α)
    (hfg : ∀ a b, f a = some b → g b = a) (l : List α) :
    ((l.filterMap f).map g).Sublist l := by
  induction l with
  | nil => simp
  | cons a t ih =>
    rw [List.filterMap_cons]
    cases hfa : f a with
    | none => exact List.Sublist.cons a ih
    | some b =>
      rw [List.map_cons, hfg a b hfa]
      exact List.Sublist.cons₂ a ih

/-- The 23 table keys are pairwise distinct. -/
lemma puertos_nodup : puertos_a_escanear.Nodup := by decide

/-- The table keys are listed in strictly increasing order. -/
lemma puertos_sorted : List.Pairwise (· < ·) puertos_a_escanear := by decide

/-- The ports named by a scan's results form a sublist of the table keys. -/
lemma scanResult_ports_sublist (env : NetEnv) :
    ((scanResult env).map PortResult.puerto).Sublist puertos_a_escanear :=
  map_filterMap_sublist (escanF env) PortResult.puerto
    (fun _ _ h => escan_puerto_some_puerto h) puertos_a_escanear

/-- Claim C1: if the TCP connect times out, is refused, or raises, the
single-port probe returns `None` rather than an error record, and every
result the probe can produce has state `"abierto"` — there is no distinct
closed/filtered/unreachable outcome. -/
theorem probe_failure_yields_none :
    (∀ (p : Nat) (c : ConnectOutcome) (b : BannerOutcome), c ≠ ConnectOutcome.ok →
      escan_puerto p c b = none) ∧
    (∀ (p : Nat) (c : ConnectOutcome) (b : BannerOutcome) (r : PortResult),
      escan_puerto p c b = some r → r.estado = "abierto") := by
  constructor
  · intro p c b hc
    cases c with
    | ok => exact absurd rfl hc
    | refused => rfl
    | exn => rfl
  · intro p c b r h
    cases c with
    | ok =>
      rw [escan_puerto_ok_eq] at h
      have hr := Option.some.inj h
      subst hr
      rfl
    | refused => simp [escan_puerto, escan_puerto_trace] at h
    | exn => simp [escan_puerto, escan_puerto_trace] at h

/-- Witness for C1 at concrete inputs. -/
theorem probe_failure_yields_none_witness :
    escan_puerto 21 ConnectOutcome.refused BannerOutcome.exnConnect = none ∧
    r80.estado = "abierto" :=
  ⟨probe_failure_yields_none.1 21 ConnectOutcome.refused BannerOutcome.exnConnect
     (by decide),
   probe_failure_yields_none.2 80 ConnectOutcome.ok (BannerOutcome.ok [72, 105]) r80
     (by decide)⟩

/-- Claim C3: on successful connect the probe always produces a result, with
state `"abierto"`, service from the port table (fallback `"desconocido"`),
and on any banner-phase failure the banner field alone carries the
`"No disponible"` sentinel. -/
theorem open_probe_result (p : Nat) (b : BannerOutcome) :
    (escan_puerto p ConnectOutcome.ok b).isSome = true ∧
    ∀ r : PortResult, escan_puerto p ConnectOutcome.ok b = some r →
      r.estado = "abierto" ∧
      r.servicio = (List.lookup p PUERTOS_COMUNES).getD "desconocido" ∧
      (b.isOk = false → r.banner = "No disponible") := by
  refine ⟨by rw [escan_puerto_ok_eq]; rfl, ?_⟩
  intro r h
  rw [escan_puerto_ok_eq] at h
  have hr := Option.some.inj h
  subst hr
  refine ⟨rfl, rfl, ?_⟩
  intro hb
  cases b with
  | ok data => simp [BannerOutcome.isOk] at hb
  | exnConnect => rfl
  | exnSend => rfl
  | exnRecv => rfl

/-- Witness for C3 at a concrete port not in the table, with a failed banner
phase. -/
theorem open_probe_result_witness :
    (escan_puerto 9999 ConnectOutcome.ok BannerOutcome.exnRecv).isSome = true ∧
    r9999.estado = "abierto" ∧
    r9999.servicio = (List.lookup 9999 PUERTOS_COMUNES).getD "desconocido" ∧
    r9999.banner = "No disponible" := by
  have h := open_probe_result 9999 BannerOutcome.exnRecv
  have h2 := h.2 r9999 (by decide)
  exact ⟨h.1, h2.1, h2.2.1, h2.2.2 (by decide)⟩

/-- Counterexample to C5 as stated: the port table does not have 21 entries. -/
theorem puertos_comunes_cex : ¬ (PUERTOS_COMUNES.length = 21) := by decide

/-- Claim C5 (amended): the fixed port table has exactly 23 entries, namely
21,22,23,25,53,80,110,111,135,139,143,443,445,993,995,1723,3306,3389,5432,
5900,6379,8080,8443, each key a unique positive integer at most 65535. -/
theorem puertos_comunes_table :
    PUERTOS_COMUNES.map Prod.fst =
      [21, 22, 23, 25, 53, 80, 110, 111, 135, 139, 143, 443, 445, 993, 995,
       1723, 3306, 3389, 5432, 5900, 6379, 8080, 8443] ∧
    PUERTOS_COMUNES.length = 23 ∧
    (PUERTOS_COMUNES.map Prod.fst).Nodup ∧
    ∀ p ∈ PUERTOS_COMUNES.map Prod.fst, 0 < p ∧ p ≤ 65535 :=
  ⟨by decide, by decide, by decide, by decide⟩

/-- Witness for C5's amended per-key bound at a concrete key. -/
theorem puertos_comunes_table_witness : 0 < 21 ∧ 21 ≤ 65535 :=
  puertos_comunes_table.2.2.2 21 (by decide)

/-- Counterexample to C6 as stated: a successful banner read of 102 bytes of
two-byte characters is stored whole (51 characters, 102 UTF-8 bytes), so the
stored banner is not truncated to 100 bytes. -/
theorem banner_bytes_cex :
    (escan_puerto 443 ConnectOutcome.ok (BannerOutcome.ok bannerBytes102)).map
        (fun r => utf8ByteLen r.banner) = some 102 ∧ ¬ (102 ≤ 100) :=
  ⟨by decide, by decide⟩

/-- Claim C6 (amended): for every probe with a successful banner read, the
stored banner is the received data (up to 1024 bytes) decoded as UTF-8 with
invalid byte sequences discarded and truncated to the first 100 characters
(which may exceed 100 bytes for multibyte text). -/
theorem banner_truncated_to_100_chars (p : Nat) (data : List Nat) (r : PortResult)
    (h : escan_puerto p ConnectOutcome.ok (BannerOutcome.ok data) = some r) :
    r.banner = String.mk ((utf8DecodeIgnore (data.take 1024)).take 100) ∧
    r.banner.length ≤ 100 := by
  rw [escan_puerto_ok_eq] at h
  have hr := Option.some.inj h
  subst hr
  refine ⟨rfl, ?_⟩
  show ((utf8DecodeIgnore (data.take 1024)).take 100).length ≤ 100
  rw [List.length_take]
  exact Nat.min_le_left _ _

/-- Witness for C6's amended statement at a concrete probe. -/
theorem banner_truncated_to_100_chars_witness :
    r80.banner = String.mk ((utf8DecodeIgnore (([72, 105] : List Nat).take 1024)).take 100) ∧
    r80.banner.length ≤ 100 :=
  banner_truncated_to_100_chars 80 [72, 105] r80 (by decide)

/-- Counterexample to C7 as stated: the fixed banner-probe payload is not 17
bytes long. -/
theorem banner_probe_cex : ¬ (utf8ByteLen BANNER_PROBE = 17) := by decide

/-- Claim C7 (amended): on successful connect the banner phase opens a second
connection (socket 1, after the first socket 0 was already closed, so the
first is not reused) and sends the fixed 19-byte payload
`"HEAD / HTTP/1.0\r\n\r\n"` on it before reading. -/
theorem banner_probe_second_connection (p : Nat) (data : List Nat) :
    utf8ByteLen BANNER_PROBE = 19 ∧
    (escan_puerto_trace p ConnectOutcome.ok (BannerOutcome.ok data)).2 =
      [SockEvent.opened 0, SockEvent.closed 0, SockEvent.opened 1,
       SockEvent.sent 1 BANNER_PROBE, SockEvent.closed 1] :=
  ⟨by decide, rfl⟩

/-- Claim C8 is violated by the code: when the banner phase raises after
`banner_sock` was created (e.g. a `recv` timeout), `banner_sock.close()` is
never executed, and when `connect_ex` itself raises, `sock.close()` is never
executed — the probe returns with a socket still open. -/
theorem sockets_leak_on_failure :
    (SockEvent.opened 1 ∈
        (escan_puerto_trace 80 ConnectOutcome.ok BannerOutcome.exnRecv).2 ∧
     SockEvent.closed 1 ∉
        (escan_puerto_trace 80 ConnectOutcome.ok BannerOutcome.exnRecv).2) ∧
    (SockEvent.opened 0 ∈
        (escan_puerto_trace 80 ConnectOutcome.exn BannerOutcome.exnConnect).2 ∧
     SockEvent.closed 0 ∉
        (escan_puerto_trace 80 ConnectOutcome.exn BannerOutcome.exnConnect).2) := by
  decide

/-- Claim C2: the scanner's returned list holds one entry per successful
probe and nothing else: every entry's port is a table key and arises from
that port's probe, no port appears twice, and every successful probe's
result is present exactly once. -/
theorem scan_entries_exact (env : NetEnv) :
    (∀ r ∈ scanResult env, r.puerto ∈ puertos_a_escanear ∧
      escanF env r.puerto = some r) ∧
    ((scanResult env).map PortResult.puerto).Nodup ∧
    (∀ p ∈ puertos_a_escanear, ∀ r : PortResult, escanF env p = some r →
      (scanResult env).count r = 1) := by
  have hnd : ((scanResult env).map PortResult.puerto).Nodup :=
    List.Nodup.sublist (scanResult_ports_sublist env) puertos_nodup
  refine ⟨?_, hnd, ?_⟩
  · intro r hr
    simp only [scanResult] at hr
    obtain ⟨p, hp, hf⟩ := List.mem_filterMap.mp hr
    have hpu : r.puerto = p := escan_puerto_some_puerto hf
    rw [hpu]
    exact ⟨hp, hf⟩
  · intro p hp r hf
    have hmem : r ∈ scanResult env := by
      simp only [scanResult]
      exact List.mem_filterMap.mpr ⟨p, hp, hf⟩
    have hnodup : (scanResult env).Nodup := List.Nodup.of_map _ hnd
    exact List.count_eq_one_of_mem hnodup hmem

/-- Witness for C2 under `env0`. -/
theorem scan_entries_exact_witness :
    (r80.puerto ∈ puertos_a_escanear ∧ escanF env0 r80.puerto = some r80) ∧
    (scanResult env0).count r80 = 1 :=
  ⟨(scan_entries_exact env0).1 r80 (by decide),
   (scan_entries_exact env0).2.2 80 (by decide) r80 (by decide)⟩

/-- `filterMap` only depends on the function's values on the list. -/
lemma filterMap_congr_mem {α β : Type} {f g : α → Option β} :
    ∀ (l : List α), (∀ a ∈ l, f a = g a) → l.filterMap f = l.filterMap g := by
  intro l
  induction l with
  | nil => intro _; rfl
  | cons a t ih =>
    intro h
    rw [List.filterMap_cons, List.filterMap_cons, h a (by simp),
      ih (fun x hx => h x (List.mem_cons_of_mem _ hx))]

/-- If `p` occurs among the keys of an association list, `lookup` finds an
entry of the list with key `p`. -/
lemma lookup_of_mem_fst {β : Type} (p : Nat) :
    ∀ (l : List (Nat × β)), p ∈ l.map Prod.fst →
      ∃ v, List.lookup p l = some v ∧ (p, v) ∈ l := by
  intro l
  induction l with
  | nil => simp
  | cons a t ih =>
    rcases a with ⟨k, v⟩
    intro h
    by_cases hpk : p = k
    · subst hpk
      exact ⟨v, by simp [List.lookup], by simp⟩
    · have hbeq : (p == k) = false := by simp [hpk]
      rcases ih (by simpa [List.mem_cons, hpk] using h) with ⟨w, hw1, hw2⟩
      refine ⟨w, ?_, List.mem_cons_of_mem _ hw2⟩
      simp [List.lookup, hbeq, hw1]

/-- The pool invariant: never more than 20 workers busy, every finished
future holds its port's probe value, and the pending, in-flight and finished
ports together are exactly the submitted ports. -/
lemma reachable_inv {env : NetEnv} {ports : List Nat} {s : PoolState}
    (h : Reachable env ports s) :
    s.running.length ≤ 20 ∧
    (∀ pr ∈ s.done, pr.2 = escanF env pr.1) ∧
    (s.pending ++ s.running ++ s.done.map Prod.fst).Perm ports := by
  induction h with
  | init => exact ⟨by simp, by simp, by simp⟩
  | step hr hst ih =>
    obtain ⟨h1, h2, h3⟩ := ih
    cases hst with
    | start p rest running done hlt =>
      refine ⟨by simp only [List.length_cons]; omega, h2, ?_⟩
      have hmid : (rest ++ p :: running).Perm (p :: (rest ++ running)) :=
        List.perm_middle
      exact (hmid.append_right (done.map Prod.fst)).trans h3
    | finish pending l1 l2 p done =>
      refine ⟨?_, ?_, ?_⟩
      · have hlen : (l1 ++ p :: l2).length ≤ 20 := h1
        simp only [List.length_append, List.length_cons] at hlen ⊢
        omega
      · intro pr hpr
        rcases List.mem_cons.mp hpr with h' | h'
        · subst h'; rfl
        · exact h2 pr h'
      · have e1 : ((pending ++ (l1 ++ l2)) ++ (p :: done.map Prod.fst)).Perm
            (p :: ((pending ++ (l1 ++ l2)) ++ done.map Prod.fst)) :=
          List.perm_middle
        have einner : (pending ++ (l1 ++ p :: l2)).Perm
            (p :: (pending ++ (l1 ++ l2))) :=
          (List.Perm.append_left pending List.perm_middle).trans List.perm_middle
        have e2 : ((pending ++ (l1 ++ p :: l2)) ++ done.map Prod.fst).Perm
            (p :: ((pending ++ (l1 ++ l2)) ++ done.map Prod.fst)) :=
          einner.append_right (done.map Prod.fst)
        exact e1.trans (e2.symm.trans h3)

/-- In a complete reachable state the collection loop returns exactly the
probe values, in submission order. -/
lemma collect_complete {env : NetEnv} {ports : List Nat} {s : PoolState}
    (h : Reachable env ports s) (hc : s.complete) :
    collectPool ports s = ports.filterMap (escanF env) := by
  obtain ⟨h1, h2, h3⟩ := reachable_inv h
  obtain ⟨hp, hr⟩ := hc
  rw [hp, hr] at h3
  have hperm : (s.done.map Prod.fst).Perm ports := by simpa using h3
  unfold collectPool
  apply filterMap_congr_mem
  intro p hpm
  have hmem : p ∈ s.done.map Prod.fst := hperm.mem_iff.mpr hpm
  obtain ⟨v, hv, hvm⟩ := lookup_of_mem_fst p s.done hmem
  have hval := h2 (p, v) hvm
  rw [hv]
  exact hval

/-- Claim C4: in every reachable pool state at most 20 probes are in flight,
whatever the configured port list; and the scan can return only from a
complete state, in which every submitted port's probe has finished and its
future holds a value. -/
theorem scan_bounded_concurrency (env : NetEnv) (ports : List Nat) (s : PoolState)
    (h : Reachable env ports s) :
    s.running.length ≤ 20 ∧
    (s.complete → ∀ p ∈ ports, ∃ v, (p, v) ∈ s.done) := by
  obtain ⟨h1, h2, h3⟩ := reachable_inv h
  refine ⟨h1, ?_⟩
  rintro ⟨hp, hr⟩ p hpm
  rw [hp, hr] at h3
  have hperm : (s.done.map Prod.fst).Perm ports := by simpa using h3
  have hmem : p ∈ s.done.map Prod.fst := hperm.mem_iff.mpr hpm
  obtain ⟨pr, hprm, hfst⟩ := List.mem_map.mp hmem
  refine ⟨pr.2, ?_⟩
  rw [← hfst]
  simpa using hprm

/-- Draining the queue one task at a time reaches a complete state. -/
lemma reachable_drain (env : NetEnv) (ports : List Nat) :
    ∀ (l : List Nat) (done : List (Nat × Option PortResult)),
      Reachable env ports ⟨l, [], done⟩ →
      Reachable env ports
        ⟨[], [], l.reverse.map (fun p => (p, escanF env p)) ++ done⟩ := by
  intro l
  induction l with
  | nil => intro done h; simpa using h
  | cons p rest ih =>
    intro done h
    have h1 : Reachable env ports ⟨rest, [p], done⟩ :=
      h.step (PoolStep.start p rest [] done (by decide))
    have h2 : Reachable env ports ⟨rest, [], (p, escanF env p) :: done⟩ :=
      h1.step (PoolStep.finish rest [] [] p done)
    have h3 := ih ((p, escanF env p) :: done) h2
    simpa [List.reverse_cons, List.map_append, List.append_assoc,
      List.singleton_append] using h3

/-- `finalState0` is reachable from the initial pool state. -/
lemma reachable_final0 : Reachable env0 puertos_a_escanear finalState0 :=
  reachable_drain env0 puertos_a_escanear puertos_a_escanear [] Reachable.init

/-- Witness for C4 at the drained state under `env0`. -/
theorem scan_bounded_concurrency_witness :
    finalState0.running.length ≤ 20 ∧ ∃ v, (80, v) ∈ finalState0.done := by
  have h := scan_bounded_concurrency env0 puertos_a_escanear finalState0
    reachable_final0
  exact ⟨h.1, h.2 ⟨rfl, rfl⟩ 80 (by decide)⟩

/-- Claim C10: in every complete reachable pool state the collected list is
exactly the submission-order `filterMap` of the probe results, independent of
the order in which probes finished, and its ports are in ascending table
order. -/
theorem scan_order_deterministic (env : NetEnv) (s : PoolState)
    (h : Reachable env puertos_a_escanear s) (hc : s.complete) :
    collectPool puertos_a_escanear s = scanResult env ∧
    ((collectPool puertos_a_escanear s).map PortResult.puerto).Pairwise (· < ·) := by
  have he : collectPool puertos_a_escanear s = scanResult env :=
    collect_complete h hc
  refine ⟨he, ?_⟩
  rw [he]
  exact List.Pairwise.sublist (scanResult_ports_sublist env) puertos_sorted

/-- Witness for C10 at the drained state under `env0`. -/
theorem scan_order_deterministic_witness :
    collectPool puertos_a_escanear finalState0 = scanResult env0 ∧
    ((collectPool puertos_a_escanear finalState0).map PortResult.puerto).Pairwise
      (· < ·) :=
  scan_order_deterministic env0 finalState0 reachable_final0 ⟨rfl, rfl⟩

/-- Claim C9: the verbose flag changes only the console output of the
geolocation lookup and of the port scan, never the data they return. -/
theorem verbose_does_not_change_data (α : Type) (ip : String) (resp : GeoHttp α)
    (env : NetEnv) :
    (geo_ip α ip resp true).1 = (geo_ip α ip resp false).1 ∧
    (escanear_puertos_comunes ip env true).1 =
      (escanear_puertos_comunes ip env false).1 := by
  constructor
  · cases resp with
    | exn => rfl
    | ok data =>
      by_cases h : data.status = some "success" <;> simp [geo_ip, h]
  · rfl
